import Mathlib

/-!
Verification of the personamapper crawl-and-classify pipeline.

Shallow embedding of the core operations of the repository:
frontier entries (`app/models/crawl_url.py`), the overwrite reset and
sitemap parsing (`app/services/sitemap_service.py`), the crawl
orchestration and URL admissibility (`app/services/web_crawler.py`),
and keyword classification (`app/services/content_analyzer.py`).
Machine floats of the source are modelled as rationals; database rows
as lists of records; timestamps as naturals.
-/

namespace PersonaMapper

/-! ## Frontier entries (`app/models/crawl_url.py`) -/

/-- One row of the `crawl_urls` table.  Column defaults are as declared in
`CrawlUrl`: `is_crawled=False`, `priority=0`, `failed_attempts=0`,
`is_failed=False`, `last_error=NULL`. -/
structure CrawlUrl where
  url : String
  priority : Int
  discovered_at : Nat
  is_crawled : Bool
  crawled_at : Option Nat
  failed_attempts : Nat
  is_failed : Bool
  last_error : Option String
deriving Repr, DecidableEq

/-- A freshly discovered entry, with the column defaults of the model. -/
def CrawlUrl.fresh (url : String) (priority : Int) (discovered_at : Nat) : CrawlUrl :=
  { url := url
    priority := priority
    discovered_at := discovered_at
    is_crawled := false
    crawled_at := none
    failed_attempts := 0
    is_failed := false
    last_error := none }

/-- `CrawlUrl.mark_as_crawled`: sets `is_crawled`, stamps `crawled_at`, and
resets the failure tracking. -/
def CrawlUrl.mark_as_crawled (u : CrawlUrl) (now : Nat) : CrawlUrl :=
  { u with
    is_crawled := true
    crawled_at := some now
    failed_attempts := 0
    is_failed := false
    last_error := none }

/-- `CrawlUrl.mark_as_failed`: increments `failed_attempts`, stores the error,
and sets `is_failed` once the count reaches `max_attempts` (default 3 at the
single call site in `start_crawl`). -/
def CrawlUrl.mark_as_failed (u : CrawlUrl) (error_message : String)
    (max_attempts : Nat) : CrawlUrl :=
  let fa := u.failed_attempts + 1
  { u with
    failed_attempts := fa
    last_error := some error_message
    is_failed := if max_attempts ≤ fa then true else u.is_failed }

/-- `CrawlUrl.reset_crawl_status`: clears crawl and failure state. -/
def CrawlUrl.reset_crawl_status (u : CrawlUrl) : CrawlUrl :=
  { u with
    is_crawled := false
    crawled_at := none
    failed_attempts := 0
    is_failed := false
    last_error := none }

/-- The operations the spec ranges over for a frontier entry: success,
failure (with the default `max_attempts = 3`), and reset. -/
inductive FrontierOp where
  | success (now : Nat)
  | failure (error_message : String)
  | reset
deriving Repr, DecidableEq

def apply_frontier_op (u : CrawlUrl) : FrontierOp → CrawlUrl
  | .success now => u.mark_as_crawled now
  | .failure msg => u.mark_as_failed msg 3
  | .reset => u.reset_crawl_status

def run_frontier_ops (u : CrawlUrl) (ops : List FrontierOp) : CrawlUrl :=
  ops.foldl apply_frontier_op u

/-- The frontier failure invariant of one entry. -/
def frontier_inv (u : CrawlUrl) : Prop :=
  u.failed_attempts < 3 ↔ u.is_failed = false

theorem frontier_inv_step (u : CrawlUrl) (op : FrontierOp)
    (h : frontier_inv u) : frontier_inv (apply_frontier_op u op) := by
  cases op with
  | success now =>
      simp [frontier_inv, apply_frontier_op, CrawlUrl.mark_as_crawled]
  | failure msg =>
      simp only [frontier_inv, apply_frontier_op, CrawlUrl.mark_as_failed] at h ⊢
      by_cases h3 : 3 ≤ u.failed_attempts + 1
      · simp [h3]
      · simp [h3]
        constructor
        · intro _
          exact h.mp (by omega)
        · intro _
          omega
  | reset =>
      simp [frontier_inv, apply_frontier_op, CrawlUrl.reset_crawl_status]

theorem frontier_inv_run (u : CrawlUrl) (ops : List FrontierOp)
    (h : frontier_inv u) : frontier_inv (run_frontier_ops u ops) := by
  induction ops generalizing u with
  | nil => exact h
  | cons op rest ih =>
      exact ih (apply_frontier_op u op) (frontier_inv_step u op h)

/-- C2: starting from a freshly discovered frontier entry, after any
sequence of `mark_as_crawled` / `mark_as_failed` (default `max_attempts=3`) /
`reset_crawl_status` operations, `failed_attempts < 3` holds iff the entry is
not permanently failed; and `mark_as_crawled` always resets `failed_attempts`
to 0 and clears the permanent-failure flag and the last error. -/
theorem c2_frontier_failure_invariant :
    (∀ (url : String) (priority : Int) (discovered_at : Nat)
        (ops : List FrontierOp),
      (run_frontier_ops (CrawlUrl.fresh url priority discovered_at) ops).failed_attempts < 3
        ↔ (run_frontier_ops (CrawlUrl.fresh url priority discovered_at) ops).is_failed = false)
    ∧ (∀ (u : CrawlUrl) (now : Nat),
        (u.mark_as_crawled now).failed_attempts = 0
        ∧ (u.mark_as_crawled now).is_failed = false
        ∧ (u.mark_as_crawled now).last_error = none) := by
  constructor
  · intro url priority discovered_at ops
    exact frontier_inv_run (CrawlUrl.fresh url priority discovered_at) ops
      (by simp [frontier_inv, CrawlUrl.fresh])
  · intro u now
    exact ⟨rfl, rfl, rfl⟩

/-! ## Overwrite reset (`SitemapService.reset_crawl_status_for_overwrite`) -/

/-- `SitemapService.reset_crawl_status_for_overwrite`: a bulk update over the
job's entries with `is_crawled=True`, setting `is_crawled=False` and
`crawled_at=NULL` only; returns the updated rows and the matched-row count. -/
def reset_crawl_status_for_overwrite (entries : List CrawlUrl) :
    List CrawlUrl × Nat :=
  (entries.map (fun e =>
      if e.is_crawled then { e with is_crawled := false, crawled_at := none }
      else e),
   (entries.filter (fun e => e.is_crawled)).length)

/-- A permanently failed, uncrawled entry, as produced by three fetch
failures. -/
def c3_failed_entry : CrawlUrl :=
  { url := "https://shop.example.com/broken"
    priority := 0
    discovered_at := 4
    is_crawled := false
    crawled_at := none
    failed_attempts := 3
    is_failed := true
    last_error := some "HTTP 500" }

/-- C3 counterexample: the overwrite reset does not clear failure state.  A
permanently failed entry keeps `failed_attempts = 3`, `is_failed = true` and
its last error after `reset_crawl_status_for_overwrite`, so the claim that
every entry of the job ends uncrawled with cleared failure state is false. -/
theorem c3_counterexample :
    ¬ (∀ e ∈ (reset_crawl_status_for_overwrite [c3_failed_entry]).1,
        e.failed_attempts = 0 ∧ e.is_failed = false ∧ e.last_error = none) := by
  decide

/-- C3 (amended): the overwrite reset sets `is_crawled := false` and clears
`crawled_at` on the entries that were marked crawled, leaves every other
entry untouched, and never changes the failure state (`failed_attempts`,
`is_failed`, `last_error`) of any entry. -/
theorem c3_overwrite_reset_amended (entries : List CrawlUrl) :
    (reset_crawl_status_for_overwrite entries).1.length = entries.length
    ∧ (∀ e ∈ (reset_crawl_status_for_overwrite entries).1, e.is_crawled = false)
    ∧ List.Forall₂ (fun e r =>
        r.url = e.url
        ∧ r.failed_attempts = e.failed_attempts
        ∧ r.is_failed = e.is_failed
        ∧ r.last_error = e.last_error
        ∧ (e.is_crawled = true → r.is_crawled = false ∧ r.crawled_at = none)
        ∧ (e.is_crawled = false → r = e))
        entries (reset_crawl_status_for_overwrite entries).1 := by
  refine ⟨by simp [reset_crawl_status_for_overwrite], ?_, ?_⟩
  · intro e he
    rw [reset_crawl_status_for_overwrite] at he
    simp only [List.mem_map] at he
    obtain ⟨a, _, rfl⟩ := he
    by_cases h : a.is_crawled
    · simp [h]
    · simp [h]
  · rw [reset_crawl_status_for_overwrite]
    rw [List.forall₂_map_right_iff]
    rw [List.forall₂_same]
    intro e _
    by_cases h : e.is_crawled
    · simp [h]
    · simp [h]

/-- C2 witness: the invariant at a concrete entry after three failures and
a success. -/
theorem c2_frontier_failure_invariant_witness :
    (run_frontier_ops (CrawlUrl.fresh "https://shop.example.com/p" 0 0)
        [.failure "timeout", .failure "timeout", .failure "HTTP 500",
          .success 9]).failed_attempts < 3
      ↔ (run_frontier_ops (CrawlUrl.fresh "https://shop.example.com/p" 0 0)
        [.failure "timeout", .failure "timeout", .failure "HTTP 500",
          .success 9]).is_failed = false :=
  c2_frontier_failure_invariant.1 "https://shop.example.com/p" 0 0
    [.failure "timeout", .failure "timeout", .failure "HTTP 500", .success 9]

/-- C3 amended witness: the amended reset theorem at a two-entry frontier,
one crawled and one permanently failed. -/
theorem c3_overwrite_reset_amended_witness :
    (reset_crawl_status_for_overwrite
      [CrawlUrl.mark_as_crawled (CrawlUrl.fresh "https://shop.example.com/ok" 0 1) 7,
        c3_failed_entry]).1.length = 2 :=
  (c3_overwrite_reset_amended
    [CrawlUrl.mark_as_crawled (CrawlUrl.fresh "https://shop.example.com/ok" 0 1) 7,
      c3_failed_entry]).1

/-! ## Claiming a batch (`WebCrawler.start_crawl`, step 3)

`urls_to_crawl = CrawlUrl.query.filter_by(crawl_job_id=…, is_crawled=False,
is_failed=False).limit(max_pages).all()`.  The query has no `order_by`
clause, so rows come back in table order (modelled by the list order of
`entries`). -/

def urls_to_crawl (entries : List CrawlUrl) (max_pages : Nat) : List CrawlUrl :=
  (entries.filter (fun u => !u.is_crawled && !u.is_failed)).take max_pages

/-- The ordering the claim asserts for a claimed batch: priority ascending,
then discovery time ascending. -/
def ordered_by_priority_then_time (l : List CrawlUrl) : Prop :=
  l.Pairwise (fun a b =>
    a.priority < b.priority
    ∨ (a.priority = b.priority ∧ a.discovered_at ≤ b.discovered_at))

/-- An uncrawled link-discovered entry with high priority value, inserted
before a sitemap-seeded priority-0 entry. -/
def c4_entry_hi : CrawlUrl := CrawlUrl.fresh "https://shop.example.com/hi" 5 10

def c4_entry_lo : CrawlUrl := CrawlUrl.fresh "https://shop.example.com/lo" 0 20

/-- C4 counterexample: the batch query has no ordering clause, so a frontier
whose table order is not priority-ascending is returned as stored: the batch
`[priority 5, priority 0]` is not ordered by priority ascending then
discovery time ascending, refuting the ordering part of the claim. -/
theorem c4_counterexample :
    ¬ ordered_by_priority_then_time (urls_to_crawl [c4_entry_hi, c4_entry_lo] 10) := by
  have hb : urls_to_crawl [c4_entry_hi, c4_entry_lo] 10 = [c4_entry_hi, c4_entry_lo] := by
    decide
  rw [hb]
  intro h
  rcases List.pairwise_cons.mp h with ⟨h1, -⟩
  rcases h1 c4_entry_lo (by simp) with h2 | ⟨h2, -⟩
  · exact absurd h2 (by decide)
  · exact absurd h2 (by decide)

/-- C4 (amended): the claimed batch contains only entries that are neither
crawled nor permanently failed, is bounded by `max_pages`, and preserves the
frontier store's own order (it is a sublist of the stored entries; no
priority/discovery-time ordering is applied).  A fresh entry that fails
three consecutive times has `failed_attempts = 3`, is permanently failed,
carries the last error, and is absent from every subsequent batch claim. -/
theorem c4_claim_batch_amended (entries : List CrawlUrl) (max_pages : Nat) :
    (urls_to_crawl entries max_pages).length ≤ max_pages
    ∧ (∀ u ∈ urls_to_crawl entries max_pages,
        u.is_crawled = false ∧ u.is_failed = false)
    ∧ (urls_to_crawl entries max_pages).Sublist entries
    ∧ (∀ (url : String) (priority : Int) (discovered_at : Nat)
        (e1 e2 e3 : String),
        ((((CrawlUrl.fresh url priority discovered_at).mark_as_failed e1 3).mark_as_failed
            e2 3).mark_as_failed e3 3).failed_attempts = 3
        ∧ ((((CrawlUrl.fresh url priority discovered_at).mark_as_failed e1 3).mark_as_failed
            e2 3).mark_as_failed e3 3).is_failed = true
        ∧ ((((CrawlUrl.fresh url priority discovered_at).mark_as_failed e1 3).mark_as_failed
            e2 3).mark_as_failed e3 3).last_error = some e3
        ∧ ((((CrawlUrl.fresh url priority discovered_at).mark_as_failed e1 3).mark_as_failed
            e2 3).mark_as_failed e3 3) ∉ urls_to_crawl entries max_pages) := by
  have hmem : ∀ u ∈ urls_to_crawl entries max_pages,
      u.is_crawled = false ∧ u.is_failed = false := by
    intro u hu
    have hf : u ∈ entries.filter (fun v => !v.is_crawled && !v.is_failed) :=
      List.take_subset _ _ hu
    have := List.of_mem_filter hf
    simp only [Bool.and_eq_true, Bool.not_eq_true'] at this
    exact this
  refine ⟨?_, hmem, ?_, ?_⟩
  · simp [urls_to_crawl]
  · exact (List.take_sublist _ _).trans (List.filter_sublist _)
  · intro url priority discovered_at e1 e2 e3
    refine ⟨by simp [CrawlUrl.mark_as_failed, CrawlUrl.fresh],
      by simp [CrawlUrl.mark_as_failed, CrawlUrl.fresh], rfl, ?_⟩
    intro hin
    have h := (hmem _ hin).2
    simp [CrawlUrl.mark_as_failed, CrawlUrl.fresh] at h

/-- C4 amended witness: the general theorem applied to a concrete frontier
and a concrete thrice-failed entry. -/
theorem c4_amended_witness :
    ((((CrawlUrl.fresh "https://shop.example.com/broken" 0 0).mark_as_failed "timeout" 3).mark_as_failed
        "timeout" 3).mark_as_failed "HTTP 500" 3).is_failed = true
    ∧ ((((CrawlUrl.fresh "https://shop.example.com/broken" 0 0).mark_as_failed "timeout" 3).mark_as_failed
        "timeout" 3).mark_as_failed "HTTP 500" 3).last_error = some "HTTP 500"
    ∧ ((((CrawlUrl.fresh "https://shop.example.com/broken" 0 0).mark_as_failed "timeout" 3).mark_as_failed
        "timeout" 3).mark_as_failed "HTTP 500" 3) ∉ urls_to_crawl [c4_entry_hi, c4_entry_lo] 10 :=
  (c4_claim_batch_amended [c4_entry_hi, c4_entry_lo] 10).2.2.2
    "https://shop.example.com/broken" 0 0 "timeout" "timeout" "HTTP 500" |>.2

/-! ## Fetching one page (`WebCrawler.fetch_page`)

`fetch_page` loops `for attempt in range(self.max_retries)` with
`max_retries = 3` and `timeout = 30`: a successful `session.get` returns
the parsed page; a `requests.exceptions.RequestException` (timeout,
connection error, or a `raise_for_status` HTTP error) sleeps
`2 ** attempt` seconds and retries unless it was the last attempt; any
other exception returns `None` at once.  Every exception is caught inside
the loop, so the function returns `Optional[...]`, never raises. -/

/-- What attempt number `i` against the network would do: deliver a page,
raise a `requests` `RequestException`, or raise some other exception. -/
inductive FetchOutcome where
  | ok
  | requestExc (msg : String)
  | otherExc (msg : String)
deriving Repr, DecidableEq

/-- The per-request timeout passed to every `session.get` call. -/
def request_timeout : Nat := 30

/-- The `max_retries` crawler setting. -/
def max_retries : Nat := 3

/-- Trace of one `fetch_page` call: the result (`some i` = the page fetched
on attempt `i`, `none` = failure result), the backoff sleeps performed, and
the timeout used by each HTTP request issued. -/
structure FetchTrace where
  result : Option Nat
  sleeps : List Nat
  timeouts : List Nat
deriving Repr, DecidableEq

/-- The retry loop of `fetch_page`.  `remaining` is `max_retries - attempt`,
the number of loop iterations left; a `RequestException` with no iteration
after this one returns the failure result instead of re-sleeping. -/
def fetch_loop (attempts : Nat → FetchOutcome) : Nat → Nat → FetchTrace
  | _, 0 => { result := none, sleeps := [], timeouts := [] }
  | attempt, remaining + 1 =>
    match attempts attempt with
    | .ok =>
        { result := some attempt, sleeps := [], timeouts := [request_timeout] }
    | .requestExc _ =>
        if 0 < remaining then
          let t := fetch_loop attempts (attempt + 1) remaining
          { result := t.result
            sleeps := 2 ^ attempt :: t.sleeps
            timeouts := request_timeout :: t.timeouts }
        else { result := none, sleeps := [], timeouts := [request_timeout] }
    | .otherExc _ =>
        { result := none, sleeps := [], timeouts := [request_timeout] }

/-- `WebCrawler.fetch_page`, as a function of what each attempt would do. -/
def fetch_page (attempts : Nat → FetchOutcome) : FetchTrace :=
  fetch_loop attempts 0 max_retries

/-- C6: every HTTP request of a `fetch_page` call uses the fixed 30-second
timeout; at most 3 attempts are made in total; the backoff sleeps are
`2^0, 2^1, …`, strictly increasing; a success on attempt `i` happens only
after `RequestException` failures on all earlier attempts; and when three
`RequestException`s exhaust the retries the call returns the failure result
`none` (the exceptions are consumed by the loop, not propagated). -/
theorem fetch_trace_shape (attempts : Nat → FetchOutcome) :
    (fetch_page attempts).timeouts.all (fun t => t = request_timeout) = true
    ∧ (fetch_page attempts).timeouts.length ≤ 3
    ∧ (fetch_page attempts).sleeps =
        (List.range (fetch_page attempts).sleeps.length).map (fun a => 2 ^ a)
    ∧ (fetch_page attempts).sleeps.Chain' (· < ·) := by
  rcases ha0 : attempts 0 with _ | m0 | m0 <;>
    rcases ha1 : attempts 1 with _ | m1 | m1 <;>
      rcases ha2 : attempts 2 with _ | m2 | m2 <;>
        refine ⟨?_, ?_, ?_, ?_⟩ <;>
          simp [fetch_page, fetch_loop, max_retries, ha0, ha1, ha2,
            request_timeout, List.range_succ]

theorem fetch_result_cases (attempts : Nat → FetchOutcome) :
    (fetch_page attempts).result = none
    ∨ ((fetch_page attempts).result = some 0 ∧ attempts 0 = .ok)
    ∨ ((fetch_page attempts).result = some 1 ∧ attempts 1 = .ok
        ∧ (∃ m, attempts 0 = .requestExc m))
    ∨ ((fetch_page attempts).result = some 2 ∧ attempts 2 = .ok
        ∧ (∃ m, attempts 0 = .requestExc m)
        ∧ (∃ m, attempts 1 = .requestExc m)) := by
  rcases ha0 : attempts 0 with _ | m0 | m0 <;>
    rcases ha1 : attempts 1 with _ | m1 | m1 <;>
      rcases ha2 : attempts 2 with _ | m2 | m2 <;>
        simp [fetch_page, fetch_loop, max_retries, ha0, ha1, ha2]

theorem c6_fetch_retries (attempts : Nat → FetchOutcome) :
    ((fetch_page attempts).timeouts.all (fun t => t = request_timeout) = true
      ∧ (fetch_page attempts).timeouts.length ≤ 3)
    ∧ ((fetch_page attempts).sleeps =
        (List.range (fetch_page attempts).sleeps.length).map (fun a => 2 ^ a)
      ∧ (fetch_page attempts).sleeps.Chain' (· < ·))
    ∧ (∀ i, (fetch_page attempts).result = some i →
        attempts i = .ok ∧ ∀ j < i, ∃ m, attempts j = .requestExc m)
    ∧ ((∀ j < 3, ∃ m, attempts j = .requestExc m) →
        (fetch_page attempts).result = none
        ∧ (fetch_page attempts).timeouts.length = 3
        ∧ (fetch_page attempts).sleeps = [1, 2]) := by
  obtain ⟨ht, hlen, hs, hc⟩ := fetch_trace_shape attempts
  refine ⟨⟨ht, hlen⟩, ⟨hs, hc⟩, ?_, ?_⟩
  · intro i hi
    rcases fetch_result_cases attempts with h | ⟨h, h1⟩ | ⟨h, h1, h2⟩ | ⟨h, h1, h2, h3⟩
    · rw [h] at hi; exact absurd hi (by simp)
    · rw [h] at hi
      obtain rfl : i = 0 := by simpa using hi.symm
      exact ⟨h1, by omega⟩
    · rw [h] at hi
      obtain rfl : i = 1 := by simpa using hi.symm
      refine ⟨h1, ?_⟩
      intro j hj
      interval_cases j
      exact h2
    · rw [h] at hi
      obtain rfl : i = 2 := by simpa using hi.symm
      refine ⟨h1, ?_⟩
      intro j hj
      interval_cases j
      · exact h2
      · exact h3
  · intro hall
    obtain ⟨m0, h0⟩ := hall 0 (by norm_num)
    obtain ⟨m1, h1⟩ := hall 1 (by norm_num)
    obtain ⟨m2, h2⟩ := hall 2 (by norm_num)
    refine ⟨?_, ?_, ?_⟩ <;>
      simp [fetch_page, fetch_loop, max_retries, h0, h1, h2, request_timeout]

/-- C6 witness: three connection timeouts in a row exhaust the retries and
produce the failure result with backoff sleeps of 1 and 2 seconds. -/
theorem c6_fetch_retries_witness :
    (fetch_page (fun _ => .requestExc "connection timed out")).result = none
    ∧ (fetch_page (fun _ => .requestExc "connection timed out")).timeouts.length = 3
    ∧ (fetch_page (fun _ => .requestExc "connection timed out")).sleeps = [1, 2] :=
  (c6_fetch_retries (fun _ => .requestExc "connection timed out")).2.2.2
    (fun _ _ => ⟨"connection timed out", rfl⟩)

/-! ## Sitemap parsing (`SitemapService.parse_sitemap`)

`parse_sitemap(sitemap_url)` fetches the XML; if the root is a sitemap
index it calls `parse_sitemap` recursively on every child sitemap URL and
concatenates the results; otherwise it extracts the leaf URLs; the
collected URLs are then filtered by `should_include_url`.  A fetch/parse
error is caught and yields `[]`.  There is no record of already-visited
sitemap URLs anywhere in the recursion.

The recursion is modelled with a fuel argument bounding recursion depth:
`none` means the computation did not finish within that depth, so
non-termination is `= none` at every fuel. -/

/-- What fetching a sitemap URL yields: a sitemap index (child sitemap
URLs), a regular sitemap (leaf page URLs), or a fetch/XML error. -/
inductive SitemapDoc where
  | index (children : List String)
  | urlset (locs : List String)
  | fetchError
deriving Repr, DecidableEq

/-- `SitemapService.parse_sitemap` with recursion depth bounded by `fuel`.
`include_url` is `should_include_url` of the crawl job, applied to the
collected URL list of every call, exactly as in the source. -/
def parse_sitemap (web : String → SitemapDoc) (include_url : String → Bool) :
    Nat → String → Option (List String)
  | 0, _ => none
  | fuel + 1, sitemap_url =>
    match web sitemap_url with
    | .fetchError => some []
    | .urlset locs => some (locs.filter include_url)
    | .index children =>
      match children.foldr (fun c acc =>
          match parse_sitemap web include_url fuel c, acc with
          | some sub, some rest => some (sub ++ rest)
          | _, _ => none) (some []) with
      | none => none
      | some subs => some (subs.filter include_url)

/-- Discovery of `sitemap_url` terminates: some recursion depth suffices. -/
def sitemap_discovery_terminates (web : String → SitemapDoc)
    (include_url : String → Bool) (sitemap_url : String) : Prop :=
  ∃ fuel, (parse_sitemap web include_url fuel sitemap_url).isSome

/-- Two sitemap indices that reference each other, the cyclic configuration
of the claim. -/
def cyclic_web (u : String) : SitemapDoc :=
  if u = "https://shop.example.com/sitemap_index.xml" then
    .index ["https://shop.example.com/sitemap_b.xml"]
  else if u = "https://shop.example.com/sitemap_b.xml" then
    .index ["https://shop.example.com/sitemap_index.xml"]
  else .fetchError

theorem cyclic_web_no_fuel (fuel : Nat) :
    parse_sitemap cyclic_web (fun _ => true) fuel
        "https://shop.example.com/sitemap_index.xml" = none
    ∧ parse_sitemap cyclic_web (fun _ => true) fuel
        "https://shop.example.com/sitemap_b.xml" = none := by
  induction fuel with
  | zero => exact ⟨rfl, rfl⟩
  | succ n ih =>
      constructor
      · simp [parse_sitemap, cyclic_web, ih.2]
      · simp [parse_sitemap, cyclic_web, ih.1]

/-- C7 counterexample: `parse_sitemap` keeps no set of visited sitemap URLs,
so on two sitemap indices that reference each other cyclically the recursive
expansion exceeds every recursion-depth bound — discovery does not
terminate, refuting the claimed revisit guard. -/
theorem c7_counterexample :
    ¬ sitemap_discovery_terminates cyclic_web (fun _ => true)
        "https://shop.example.com/sitemap_index.xml" := by
  rintro ⟨fuel, h⟩
  rw [(cyclic_web_no_fuel fuel).1] at h
  exact absurd h (by simp)

/-- An acyclic sitemap index: one index with two leaf sitemaps. -/
def tree_web (u : String) : SitemapDoc :=
  if u = "https://shop.example.com/sitemap_index.xml" then
    .index ["https://shop.example.com/sitemap_a.xml",
      "https://shop.example.com/sitemap_b.xml"]
  else if u = "https://shop.example.com/sitemap_a.xml" then
    .urlset ["https://shop.example.com/p1", "https://shop.example.com/p2"]
  else if u = "https://shop.example.com/sitemap_b.xml" then
    .urlset ["https://shop.example.com/p3"]
  else .fetchError

/-- C7 (amended): when the fetched XML root is a sitemap index the child
sitemap URLs are expanded recursively and their leaf URLs collected, but
with no guard against revisiting a sitemap URL: expansion of an acyclic
index terminates and collects the leaf URLs, while on cyclically
referencing sitemap indices the recursion exhausts every depth bound
(non-termination of the idealized recursion; the runtime stops it only via
the interpreter recursion limit, caught as a parse error). -/
theorem c7_sitemap_recursion_amended :
    (parse_sitemap tree_web (fun _ => true) 2
        "https://shop.example.com/sitemap_index.xml" =
      some ["https://shop.example.com/p1", "https://shop.example.com/p2",
        "https://shop.example.com/p3"])
    ∧ ∀ fuel, parse_sitemap cyclic_web (fun _ => true) fuel
        "https://shop.example.com/sitemap_index.xml" = none := by
  exact ⟨by decide, fun fuel => (cyclic_web_no_fuel fuel).1⟩

/-- C7 amended witness: at recursion depth 5, the cyclic pair of sitemap
indices still yields no result. -/
theorem c7_sitemap_recursion_amended_witness :
    parse_sitemap cyclic_web (fun _ => true) 5
      "https://shop.example.com/sitemap_index.xml" = none :=
  c7_sitemap_recursion_amended.2 5

/-! ## Wildcard patterns and URL admissibility
(`WebCrawler.match_pattern`, `WebCrawler.should_crawl_url`)

`match_pattern` turns a pattern into a regular expression with
`pattern.replace('*', '.*').replace('?', '.')` and runs an unanchored
`re.search`.  So `*` matches any run of characters, `?` and a literal `.`
match any single character, and the remaining characters (the patterns this
feature is used with contain no other regex metacharacters) match
literally. -/

inductive PatTok where
  | lit (c : Char)
  | anyChar
  | anyRun
deriving Repr, DecidableEq

def pattern_tokens : List Char → List PatTok
  | [] => []
  | '*' :: rest => .anyRun :: pattern_tokens rest
  | '?' :: rest => .anyChar :: pattern_tokens rest
  | '.' :: rest => .anyChar :: pattern_tokens rest
  | c :: rest => .lit c :: pattern_tokens rest

/-- Regular-expression match of the token list against a prefix of the
character list (the rest of the string may remain, as for `re.search`).
Every step consumes a token or a character, so the recursion depth is below
`ts.length + cs.length + 1`; the explicit fuel keeps the recursion
structural and hence computable by the kernel, and is never exhausted. -/
def match_fuel : Nat → List PatTok → List Char → Bool
  | 0, _, _ => false
  | _ + 1, [], _ => true
  | _ + 1, .lit _ :: _, [] => false
  | _ + 1, .anyChar :: _, [] => false
  | fuel + 1, .anyRun :: ts, [] => match_fuel fuel ts []
  | fuel + 1, .lit c :: ts, d :: ds => c == d && match_fuel fuel ts ds
  | fuel + 1, .anyChar :: ts, _ :: ds => match_fuel fuel ts ds
  | fuel + 1, .anyRun :: ts, d :: ds =>
      match_fuel fuel ts (d :: ds) || match_fuel fuel (.anyRun :: ts) ds

def match_here (ts : List PatTok) (cs : List Char) : Bool :=
  match_fuel (ts.length + cs.length + 1) ts cs

/-- `re.search`: the match may start at any position. -/
def regex_search (toks : List PatTok) : List Char → Bool
  | [] => match_here toks []
  | c :: cs => match_here toks (c :: cs) || regex_search toks cs

/-- `WebCrawler.match_pattern(url, pattern)`. -/
def match_pattern (s : String) (pattern : String) : Bool :=
  regex_search (pattern_tokens pattern.data) s.data

/-! URL parsing (`urllib.parse.urlparse` / `parse_qs`), for absolute
`scheme://netloc/path?query#fragment` URLs as the crawler handles them. -/

structure UrlParts where
  scheme : String
  netloc : String
  path : String
  query : String
deriving Repr, DecidableEq

/-- Splits at the first `://`, when present. -/
def split_scheme : List Char → Option (List Char × List Char)
  | [] => none
  | ':' :: '/' :: '/' :: rest => some ([], rest)
  | c :: rest => (split_scheme rest).map (fun p => (c :: p.1, p.2))

def urlparse (url : String) : UrlParts :=
  let noFrag := url.data.takeWhile (fun c => c != '#')
  match split_scheme noFrag with
  | none =>
      let path := noFrag.takeWhile (fun c => c != '?')
      { scheme := "", netloc := "", path := String.mk path,
        query := String.mk (noFrag.drop (path.length + 1)) }
  | some (scheme, rest) =>
      let netloc := rest.takeWhile (fun c => c != '/' && c != '?')
      let after := rest.drop netloc.length
      let path := after.takeWhile (fun c => c != '?')
      { scheme := String.mk scheme, netloc := String.mk netloc,
        path := String.mk path,
        query := String.mk (after.drop (path.length + 1)) }

def is_hex_digit (c : Char) : Bool :=
  c.isDigit || ('a' ≤ c && c ≤ 'f') || ('A' ≤ c && c ≤ 'F')

def hex_val (c : Char) : Nat :=
  if c.isDigit then c.toNat - 48
  else if 'a' ≤ c && c ≤ 'f' then c.toNat - 87
  else if 'A' ≤ c && c ≤ 'F' then c.toNat - 55
  else 0

/-- `urllib.parse.unquote_plus`: `+` to space, `%XX` hex-decoded, malformed
escapes kept as written. -/
def unquote_plus : List Char → List Char
  | [] => []
  | '%' :: h1 :: h2 :: rest =>
      if is_hex_digit h1 && is_hex_digit h2 then
        Char.ofNat (16 * hex_val h1 + hex_val h2) :: unquote_plus rest
      else '%' :: unquote_plus (h1 :: h2 :: rest)
  | '+' :: rest => ' ' :: unquote_plus rest
  | c :: rest => c :: unquote_plus rest

/-- Python `str.strip()` on character lists. -/
def py_strip (cs : List Char) : List Char :=
  ((cs.dropWhile Char.isWhitespace).reverse.dropWhile Char.isWhitespace).reverse

/-- Python `str.split(sep)` for a one-character separator (empty pieces
kept, as in Python). -/
def py_split (sep : Char) : List Char → List (List Char)
  | [] => [[]]
  | c :: rest =>
      match py_split sep rest with
      | [] => [[c]]
      | grp :: more =>
          if c == sep then [] :: grp :: more else (c :: grp) :: more

/-- `urllib.parse.parse_qs` with its defaults (`keep_blank_values=False`):
fields split on `&`, each split at the first `=`; fields without `=` or
with a blank value are dropped; names and values are URL-decoded.
`parse_qs` groups the pairs into a dict of value lists; iterating the
dict's `(key, values)` items visits exactly these pairs, so the
admissibility check below ranges over this pair list. -/
def parse_qsl (qs : String) : List (String × String) :=
  (py_split '&' qs.data).filterMap (fun name_value =>
    if name_value.isEmpty then none
    else
      let name := name_value.takeWhile (fun c => c != '=')
      if name.length = name_value.length then none
      else
        let value := name_value.drop (name.length + 1)
        if value.isEmpty then none
        else some (String.mk (unquote_plus name),
          String.mk (unquote_plus value)))

/-- The crawl-job configuration consumed by `should_crawl_url`. -/
structure CrawlJob where
  base_url : String
  include_patterns : Option String
  exclude_patterns : Option String
  crawl_mode : String
deriving Repr, DecidableEq

/-- `[p.strip() for p in text.split('\n') if p.strip()]`, guarded by the
truthiness check on the column (`None` or `''` give no patterns). -/
def text_patterns : Option String → List String
  | none => []
  | some t =>
      if t == "" then []
      else ((py_split '\n' t.data).map (fun p => String.mk (py_strip p))).filter
        (fun p => p != "")

/-- `pattern.split('=', 1)[0]`. -/
def pattern_key (pattern : String) : String :=
  String.mk (pattern.data.takeWhile (fun c => c != '='))

/-- `pattern.split('=', 1)[1]`. -/
def pattern_value (pattern : String) : String :=
  String.mk (pattern.data.drop
    ((pattern.data.takeWhile (fun c => c != '=')).length + 1))

/-- The body of the per-pattern exclude check of `should_crawl_url`: the
pattern is tried against the URL path, the raw query string, and — when the
pattern itself has the shape `key=value` — against each decoded query
parameter name/value pair. -/
def exclude_pattern_hits (pattern : String) (url : String) : Bool :=
  let parsed := urlparse url
  let query_params := parse_qsl parsed.query
  match_pattern parsed.path pattern
  || match_pattern parsed.query pattern
  || (pattern.data.contains '=' &&
      query_params.any (fun kv =>
        match_pattern kv.1 (pattern_key pattern)
        && match_pattern kv.2 (pattern_value pattern)))

/-- `WebCrawler.should_crawl_url`: rejects empty and already-visited URLs,
foreign domains, already-crawled URLs in incremental mode, URLs matching no
include pattern (when include patterns are configured), and URLs hit by an
exclude pattern. -/
def should_crawl_url (job : CrawlJob) (visited_urls : List String)
    (existing_pages : List String) (url : String) : Bool :=
  if url == "" || visited_urls.contains url then false
  else if (urlparse url).netloc != (urlparse job.base_url).netloc then false
  else if job.crawl_mode == "incremental" && existing_pages.contains url then
    false
  else if !(text_patterns job.include_patterns).isEmpty
      && !(text_patterns job.include_patterns).any
        (fun p => match_pattern url p) then false
  else
    !(text_patterns job.exclude_patterns).any
      (fun pattern => exclude_pattern_hits pattern url)

/-- The job of the claim's example: base `https://x.com`, one exclude
pattern `share=*`. -/
def share_job : CrawlJob :=
  { base_url := "https://x.com"
    include_patterns := none
    exclude_patterns := some "share=*"
    crawl_mode := "overwrite" }

/-- C8: URL admissibility checks every exclude pattern against the URL
path, the raw query string, and individually against each decoded query
parameter name/value pair — any hit rejects the URL; with the exclude
pattern `share=*`, `https://x.com/p?share=fb` is rejected and
`https://x.com/p` is admitted. -/
theorem c8_url_admissibility :
    (∀ (job : CrawlJob) (visited_urls existing_pages : List String)
        (url pattern : String),
      pattern ∈ text_patterns job.exclude_patterns →
      (match_pattern (urlparse url).path pattern = true
        ∨ match_pattern (urlparse url).query pattern = true
        ∨ (pattern.data.contains '=' = true
            ∧ ∃ kv ∈ parse_qsl (urlparse url).query,
              match_pattern kv.1 (pattern_key pattern) = true
              ∧ match_pattern kv.2 (pattern_value pattern) = true)) →
      should_crawl_url job visited_urls existing_pages url = false)
    ∧ should_crawl_url share_job [] [] "https://x.com/p?share=fb" = false
    ∧ should_crawl_url share_job [] [] "https://x.com/p" = true := by
  refine ⟨?_, by decide, by decide⟩
  intro job visited_urls existing_pages url pattern hp hhit
  have hits : exclude_pattern_hits pattern url = true := by
    rw [exclude_pattern_hits]
    simp only [Bool.or_eq_true, Bool.and_eq_true, List.any_eq_true]
    rcases hhit with h | h | ⟨he, kv, hkv, h1, h2⟩
    · exact Or.inl (Or.inl h)
    · exact Or.inl (Or.inr h)
    · exact Or.inr ⟨he, kv, hkv, h1, h2⟩
  have hany : (text_patterns job.exclude_patterns).any
      (fun pat => exclude_pattern_hits pat url) = true :=
    List.any_eq_true.mpr ⟨pattern, hp, hits⟩
  rw [should_crawl_url]
  split
  · rfl
  · split
    · rfl
    · split
      · rfl
      · split
        · rfl
        · simp [hany]

/-- C8 witness: the general exclusion rule applied to the claim's concrete
example — `share=*` hits the decoded query parameter `share=fb`. -/
theorem c8_url_admissibility_witness :
    should_crawl_url share_job [] [] "https://x.com/p?share=fb" = false :=
  c8_url_admissibility.1 share_job [] [] "https://x.com/p?share=fb" "share=*"
    (by decide)
    (Or.inr (Or.inl (by decide)))

/-! ## Keyword classification (`ContentAnalyzer`, `app/services/content_analyzer.py`)

`UnifiedContentAnalyzer.analyze_content_for_persona` always delegates to the
keyword `ContentAnalyzer.analyze_content_for_persona`, so that function is
the classifier the crawler invokes per persona.  Float scores are modelled
as rationals. -/

/-- A persona row as consumed read-only by the classifier. -/
structure Persona where
  id : Nat
  title : String
  description : String
  keywords : String
  is_active : Bool
deriving Repr, DecidableEq

/-- `Persona.get_keywords_list`: comma-split, stripped, blanks dropped
(guarded by the truthiness of the column). -/
def get_keywords_list (keywords : String) : List String :=
  if keywords == "" then []
  else ((py_split ',' keywords.data).map (fun k => String.mk (py_strip k))).filter
    (fun k => k != "")

/-- The stopword set of `ContentAnalyzer.__init__`. -/
def stop_words : List String :=
  ["the", "a", "an", "and", "or", "but", "in", "on", "at", "to", "for",
   "of", "with", "by", "is", "are", "was", "were", "be", "been", "being",
   "have", "has", "had", "do", "does", "did", "will", "would", "could",
   "should", "may", "might", "can", "this", "that", "these", "those"]

/-- Everything from a `<` to the next `>` (regex `<[^>]+>`: at least one
character between them): the characters inside and the rest after the
`>`. -/
def find_gt : List Char → Option (List Char × List Char)
  | [] => none
  | c :: rest =>
      if c == '>' then some ([], rest)
      else (find_gt rest).map (fun p => (c :: p.1, p.2))

/-- `re.sub(r'<[^>]+>', ' ', content)`: each complete nonempty tag becomes
one space; a `<` without a closing `>` (or an empty `<>`) is kept.  Each
step consumes at least one character, so the character count is enough
fuel; the explicit fuel keeps the recursion structural. -/
def strip_tags_fuel : Nat → List Char → List Char
  | 0, _ => []
  | _ + 1, [] => []
  | fuel + 1, c :: rest =>
      if c == '<' then
        match find_gt rest with
        | some (inside, after) =>
            if inside.isEmpty then c :: strip_tags_fuel fuel rest
            else ' ' :: strip_tags_fuel fuel after
        | none => c :: strip_tags_fuel fuel rest
      else c :: strip_tags_fuel fuel rest

def strip_tags (cs : List Char) : List Char :=
  strip_tags_fuel cs.length cs

/-- A regex `\w` character. -/
def word_char (c : Char) : Bool :=
  c.isAlphanum || c == '_'

/-- The maximal runs of word characters, in order.  `current` is the run
being read, reversed. -/
def word_runs_aux : List Char → List Char → List (List Char)
  | current, [] => if current.isEmpty then [] else [current.reverse]
  | current, c :: rest =>
      if word_char c then word_runs_aux (c :: current) rest
      else if current.isEmpty then word_runs_aux [] rest
      else current.reverse :: word_runs_aux [] rest

def word_runs (cs : List Char) : List (List Char) :=
  word_runs_aux [] cs

/-- `ContentAnalyzer._extract_content_words`: drop HTML tags, lowercase,
take the `\b[a-zA-Z]{3,}\b` matches (exactly the maximal word-character
runs that are all-alphabetic and at least 3 long), drop stopwords. -/
def extract_content_words (content : String) : List String :=
  let lowered := (strip_tags content.data).map Char.toLower
  let words := (word_runs lowered).filter
    (fun r => r.all (fun c => c.isAlpha) && decide (3 ≤ r.length))
  (words.map (fun r => String.mk r)).filter (fun w => !stop_words.contains w)

/-- `kw.lower().strip()`. -/
def lower_strip (s : String) : String :=
  String.mk (py_strip (s.data.map Char.toLower))

/-- The `'{kw}' ({n}x)` entry of the matches list. -/
def exact_label (kw : String) (cnt : Nat) : String :=
  "'" ++ kw ++ "' (" ++ toString cnt ++ "x)"

/-- The `'{kw}' (partial)` entry of the matches list. -/
def phrase_label (kw : String) : String :=
  "'" ++ kw ++ "' (partial)"

/-- One step of the keyword loop: an exact occurrence count adds the count
to the score; otherwise a multi-word keyword whose words are all present
adds 0.5 as a partial match. -/
def keyword_step (content_words : List String) (acc : List String × ℚ)
    (keyword : String) : List String × ℚ :=
  let keyword_count := content_words.count keyword
  if 0 < keyword_count then
    (acc.1 ++ [exact_label keyword keyword_count], acc.2 + (keyword_count : ℚ))
  else if keyword.data.contains ' ' then
    let parts := ((py_split ' ' keyword.data).filter
      (fun p => !p.isEmpty)).map (fun p => String.mk p)
    if parts.all (fun part => content_words.contains part) then
      (acc.1 ++ [phrase_label keyword], acc.2 + (1 : ℚ) / 2)
    else acc
  else acc

/-- `Matched keywords: …` with at most the first 5 entries named. -/
def mk_reason (ms : List String) : String :=
  let reason := "Matched keywords: " ++ String.intercalate ", " (ms.take 5)
  if 5 < ms.length then
    reason ++ " and " ++ toString (ms.length - 5) ++ " more"
  else reason

/-- Python's two-argument `min` on numbers (the first argument on ties);
written out so that it evaluates in the kernel. -/
def py_min (a b : ℚ) : ℚ :=
  if a ≤ b then a else b

/-- The classifier's verdict for one (content, persona) pair. -/
structure MappingDecision where
  should_map : Bool
  confidence : ℚ
  reason : String
deriving Repr, DecidableEq

/-- `ContentAnalyzer.analyze_content_for_persona`: guards for short content,
missing keywords and empty word lists; then
`confidence = min(matched_ratio + min(score/words, 0.3), 1.0)` and
`should_map = confidence > 0.1`. -/
def analyze_content_for_persona (content : String) (persona : Persona) :
    MappingDecision :=
  if (py_strip content.data).length < 50 then
    { should_map := false, confidence := 0,
      reason := "Content too short to analyze" }
  else if persona.keywords == "" then
    { should_map := false, confidence := 0,
      reason := "No keywords defined for persona" }
  else
    let content_words := extract_content_words content
    if content_words.isEmpty then
      { should_map := false, confidence := 0,
        reason := "No meaningful words found in content" }
    else
      let persona_keywords_lower :=
        (get_keywords_list persona.keywords).map lower_strip
      let folded := persona_keywords_lower.foldl
        (keyword_step content_words) ([], 0)
      if folded.1.isEmpty then
        { should_map := false, confidence := 0,
          reason := "No keyword matches found" }
      else
        let base_score : ℚ :=
          (folded.1.length : ℚ) / (persona_keywords_lower.length : ℚ)
        let frequency_boost : ℚ :=
          py_min (folded.2 / (content_words.length : ℚ)) (3 / 10)
        let confidence_score : ℚ := py_min (base_score + frequency_boost) 1
        { should_map := decide ((1 : ℚ) / 10 < confidence_score)
          confidence := confidence_score
          reason := mk_reason folded.1 }

/-! ## Mapping store (`WebCrawler.analyze_and_map_content`)

One call deactivates every active mapping of the page (rows kept, only
`is_active` and `updated_at` change), then inserts one fresh row per active
persona whose classifier verdict says `should_map`, with `is_active=True`
and the crawl timestamp of this pass. -/

/-- One row of the `content_mappings` table (the columns the operation
touches or creates). -/
structure ContentMapping where
  page_id : Nat
  persona_id : Nat
  confidence_score : ℚ
  mapping_reason : String
  mapping_method : String
  is_active : Bool
  crawl_timestamp : Option Nat
  updated_at : Nat
deriving Repr, DecidableEq

/-- The deactivation pass over the page's previously active mappings. -/
def deactivate_previous (page_id : Nat) (now : Nat)
    (store : List ContentMapping) : List ContentMapping :=
  store.map (fun m =>
    if m.page_id == page_id && m.is_active then
      { m with is_active := false, updated_at := now }
    else m)

/-- The row inserted for one persona, when the classifier maps it. -/
def mapping_for (page_id : Nat) (content : String) (now : Nat)
    (persona : Persona) : Option ContentMapping :=
  let r := analyze_content_for_persona content persona
  if r.should_map then
    some { page_id := page_id
           persona_id := persona.id
           confidence_score := r.confidence
           mapping_reason := r.reason
           mapping_method := "automated_crawl"
           is_active := true
           crawl_timestamp := some now
           updated_at := now }
  else none

/-- The fresh rows of one crawl pass: the loop over
`Persona.query.filter_by(is_active=True)`. -/
def new_mappings (page_id : Nat) (content : String) (personas : List Persona)
    (now : Nat) : List ContentMapping :=
  (personas.filter (fun p => p.is_active)).filterMap
    (mapping_for page_id content now)

/-- `WebCrawler.analyze_and_map_content` acting on the mapping table. -/
def analyze_and_map_content (page_id : Nat) (content : String)
    (personas : List Persona) (now : Nat) (store : List ContentMapping) :
    List ContentMapping :=
  deactivate_previous page_id now store
    ++ new_mappings page_id content personas now

/-- No two rows of the store are both active for the same (page, persona):
at most one active mapping per pair. -/
def at_most_one_active (store : List ContentMapping) : Prop :=
  store.Pairwise (fun m1 m2 =>
    ¬ (m1.is_active = true ∧ m2.is_active = true
      ∧ m1.page_id = m2.page_id ∧ m1.persona_id = m2.persona_id))

/-- How many mapping rows the store holds for a page. -/
def page_rows (store : List ContentMapping) (pid : Nat) : Nat :=
  (store.filter (fun m => m.page_id == pid)).length

theorem mem_new_mappings {page_id : Nat} {content : String} {now : Nat}
    {ps : List Persona} {m : ContentMapping}
    (hm : m ∈ ps.filterMap (mapping_for page_id content now)) :
    m.page_id = page_id ∧ m.is_active = true ∧ m.crawl_timestamp = some now
    ∧ ∃ p ∈ ps, m.persona_id = p.id := by
  obtain ⟨p, hp, he⟩ := List.mem_filterMap.mp hm
  rw [mapping_for] at he
  split at he
  · obtain rfl := Option.some.inj he
    exact ⟨rfl, rfl, rfl, p, hp, rfl⟩
  · exact absurd he (by simp)

theorem new_mappings_pairwise (page_id : Nat) (content : String) (now : Nat)
    (ps : List Persona) (hnd : (ps.map (fun p => p.id)).Nodup) :
    (ps.filterMap (mapping_for page_id content now)).Pairwise
      (fun m1 m2 => m1.persona_id ≠ m2.persona_id) := by
  induction ps with
  | nil => exact List.Pairwise.nil
  | cons p rest ih =>
      rw [List.map_cons, List.nodup_cons] at hnd
      rw [List.filterMap_cons]
      rcases he : mapping_for page_id content now p with _ | m
      · exact ih hnd.2
      · refine List.Pairwise.cons ?_ (ih hnd.2)
        intro m' hm'
        obtain ⟨-, -, -, q, hq, hq'⟩ := mem_new_mappings hm'
        have hmp : m.persona_id = p.id := by
          rw [mapping_for] at he
          split at he
          · obtain rfl := Option.some.inj he
            rfl
          · exact absurd he (by simp)
        rw [hmp, hq']
        intro hcontra
        exact hnd.1 (hcontra ▸ List.mem_map_of_mem (fun x => x.id) hq)

theorem countP_eq_of_eq_on {α : Type} (l : List α) (p q : α → Bool)
    (h : ∀ a ∈ l, p a = q a) : l.countP p = l.countP q := by
  induction l with
  | nil => rfl
  | cons a rest ih =>
      rw [List.countP_cons, List.countP_cons, h a (by simp),
        ih (fun x hx => h x (by simp [hx]))]

/-- C1: one crawl pass over a page keeps every stored row at its index
(nothing is deleted), preserves every row's page, persona, score and crawl
timestamp, deactivates exactly the page's previously active rows, appends
the classifier's fresh rows with `is_active=true` and the current
timestamp, preserves the at-most-one-active-mapping-per-(page, persona)
invariant (given distinct persona ids), and never decreases the number of
mapping rows of any page. -/
theorem c1_mapping_versioning (store : List ContentMapping) (page_id : Nat)
    (content : String) (personas : List Persona) (now : Nat)
    (hinv : at_most_one_active store)
    (hnd : (personas.map (fun p => p.id)).Nodup) :
    (analyze_and_map_content page_id content personas now store).length
      = store.length + (new_mappings page_id content personas now).length
    ∧ List.Forall₂ (fun m0 m1 =>
        m1.page_id = m0.page_id ∧ m1.persona_id = m0.persona_id
        ∧ m1.confidence_score = m0.confidence_score
        ∧ m1.crawl_timestamp = m0.crawl_timestamp
        ∧ (m1.is_active = true → m0.is_active = true)
        ∧ (m0.page_id = page_id → m0.is_active = true → m1.is_active = false))
        store
        ((analyze_and_map_content page_id content personas now store).take store.length)
    ∧ (∀ m ∈ new_mappings page_id content personas now,
        m.page_id = page_id ∧ m.is_active = true
        ∧ m.crawl_timestamp = some now)
    ∧ at_most_one_active (analyze_and_map_content page_id content personas now store)
    ∧ (∀ pid, page_rows store pid
        ≤ page_rows (analyze_and_map_content page_id content personas now store) pid) := by
  have hdlen : (deactivate_previous page_id now store).length = store.length := by
    simp [deactivate_previous]
  have hfid : ∀ m : ContentMapping,
      (if m.page_id == page_id && m.is_active then
        { m with is_active := false, updated_at := now } else m).page_id = m.page_id
      ∧ (if m.page_id == page_id && m.is_active then
        { m with is_active := false, updated_at := now } else m).persona_id = m.persona_id
      ∧ (if m.page_id == page_id && m.is_active then
        { m with is_active := false, updated_at := now } else m).confidence_score
          = m.confidence_score
      ∧ (if m.page_id == page_id && m.is_active then
        { m with is_active := false, updated_at := now } else m).crawl_timestamp
          = m.crawl_timestamp
      ∧ ((if m.page_id == page_id && m.is_active then
        { m with is_active := false, updated_at := now } else m).is_active = true
          → m.is_active = true) := by
    intro m
    by_cases hc : (m.page_id == page_id && m.is_active) = true
    · simp [hc]
    · simp [hc]
  refine ⟨?_, ?_, ?_, ?_, ?_⟩
  · rw [analyze_and_map_content, List.length_append, hdlen]
  · have htake : (analyze_and_map_content page_id content personas now store).take store.length
        = deactivate_previous page_id now store := by
      rw [analyze_and_map_content, ← hdlen, List.take_left]
    rw [htake, deactivate_previous, List.forall₂_map_right_iff, List.forall₂_same]
    intro m _
    by_cases hc : (m.page_id == page_id && m.is_active) = true
    · simp [hc]
    · simp [hc]
      intro h1 h2
      simp [h1, h2] at hc
  · intro m hm
    obtain ⟨h1, h2, h3, -⟩ := mem_new_mappings hm
    exact ⟨h1, h2, h3⟩
  · rw [analyze_and_map_content, at_most_one_active, List.pairwise_append]
    refine ⟨?_, ?_, ?_⟩
    · rw [deactivate_previous, List.pairwise_map]
      refine hinv.imp ?_
      intro a b hab
      rintro ⟨ha, hb, hpg, hpe⟩
      obtain ⟨hpa, hea, -, -, haa⟩ := hfid a
      obtain ⟨hpb, heb, -, -, hbb⟩ := hfid b
      exact hab ⟨haa ha, hbb hb, by rw [← hpa, ← hpb]; exact hpg,
        by rw [← hea, ← heb]; exact hpe⟩
    · have hnd' : ((personas.filter (fun p => p.is_active)).map
          (fun p => p.id)).Nodup :=
        hnd.sublist ((List.filter_sublist personas).map (fun p => p.id))
      refine (new_mappings_pairwise page_id content now _ hnd').imp ?_
      intro a b hab
      rintro ⟨-, -, -, hpe⟩
      exact hab hpe
    · intro a ha b hb
      rw [deactivate_previous] at ha
      obtain ⟨m, hm, rfl⟩ := List.mem_map.mp ha
      obtain ⟨hbp, -, -, -⟩ := mem_new_mappings hb
      rintro ⟨haa, hba, hpg, -⟩
      by_cases hc : (m.page_id == page_id && m.is_active) = true
      · simp [hc] at haa
      · have hc' := hc
        simp only [Bool.and_eq_true, beq_iff_eq, not_and] at hc'
        simp only [hc, if_false, reduceIte] at haa hpg
        rw [hbp] at hpg
        exact hc' hpg haa
  · intro pid
    rw [analyze_and_map_content, page_rows, page_rows,
      ← List.countP_eq_length_filter, ← List.countP_eq_length_filter,
      List.countP_append, deactivate_previous, List.countP_map]
    have : store.countP ((fun m => m.page_id == pid) ∘
        (fun m => if m.page_id == page_id && m.is_active then
          { m with is_active := false, updated_at := now } else m))
        = store.countP (fun m => m.page_id == pid) := by
      apply countP_eq_of_eq_on
      intro m _
      simp only [Function.comp_apply]
      rw [(hfid m).1]
    rw [this]
    omega

/-! ## The concrete personas and contents of the claims -/

/-- Persona A of the claim: keywords `alpha, beta`. -/
def persona_A : Persona :=
  { id := 1, title := "Persona A", description := "interest profile A",
    keywords := "alpha, beta", is_active := true }

/-- Persona B of the claim: keyword `gamma`. -/
def persona_B : Persona :=
  { id := 2, title := "Persona B", description := "interest profile B",
    keywords := "gamma", is_active := true }

/-- Content with `alpha` five times, `beta` once, no `gamma` — but only 34
characters long. -/
def c9_short_content : String := "alpha alpha alpha alpha alpha beta"

/-- The same keyword profile padded past the 50-character minimum. -/
def c9_long_content : String :=
  "alpha alpha alpha alpha alpha beta filler filler filler filler filler"

/-- A previously stored active mapping of page 1 to persona B. -/
def c1_old_mapping : ContentMapping :=
  { page_id := 1
    persona_id := 2
    confidence_score := mkRat 9 10
    mapping_reason := "Matched keywords"
    mapping_method := "automated_crawl"
    is_active := true
    crawl_timestamp := some 50
    updated_at := 50 }

/-- C1 witness: the versioning theorem applied to a store holding one
active mapping and to the two concrete personas. -/
theorem c1_mapping_versioning_witness :
    at_most_one_active [c1_old_mapping]
    ∧ (([persona_A, persona_B].map (fun p => p.id)).Nodup)
    ∧ at_most_one_active
        (analyze_and_map_content 1 c9_long_content [persona_A, persona_B] 60
          [c1_old_mapping]) :=
  ⟨by unfold at_most_one_active; decide, by decide,
    (c1_mapping_versioning [c1_old_mapping] 1 c9_long_content
      [persona_A, persona_B] 60 (by unfold at_most_one_active; decide)
      (by decide)).2.2.2.1⟩

/-- C9 counterexample: the claim quantifies over any content containing
`alpha` five times and `beta` once without `gamma`, but a 34-character such
content falls under the classifier's 50-character minimum and yields no
mapping for persona A at all (`should_map = false`, confidence 0), refuting
the claim as stated. -/
theorem c9_counterexample :
    (py_strip c9_short_content.data).length < 50
    ∧ (extract_content_words c9_short_content).count "alpha" = 5
    ∧ (extract_content_words c9_short_content).count "beta" = 1
    ∧ (extract_content_words c9_short_content).count "gamma" = 0
    ∧ (analyze_content_for_persona c9_short_content persona_A).should_map = false
    ∧ (analyze_content_for_persona c9_short_content persona_A).confidence = 0
    ∧ new_mappings 1 c9_short_content [persona_A, persona_B] 60 = [] := by
  decide

/-- C9 (amended): for content admitted by the classifier's 50-character
minimum whose extracted words contain `alpha` five times and `beta` once
and no `gamma`, persona A is mapped with confidence 1 (both keywords match,
so the matched-keyword ratio alone reaches the cap) — in particular above
the 0.1 admission threshold — while persona B gets `should_map = false`
with confidence 0 and no mapping row: the pass creates exactly the row for
persona A. -/
theorem c9_keyword_classification_amended (content : String)
    (hlen : 50 ≤ (py_strip content.data).length)
    (ha : (extract_content_words content).count "alpha" = 5)
    (hb : (extract_content_words content).count "beta" = 1)
    (hg : (extract_content_words content).count "gamma" = 0) :
    (analyze_content_for_persona content persona_A).should_map = true
    ∧ (analyze_content_for_persona content persona_A).confidence = 1
    ∧ (0 : ℚ) < (analyze_content_for_persona content persona_A).confidence
    ∧ (analyze_content_for_persona content persona_B).should_map = false
    ∧ (analyze_content_for_persona content persona_B).confidence = 0
    ∧ ∀ (page_id now : Nat),
        (new_mappings page_id content [persona_A, persona_B] now).map
          (fun m => m.persona_id) = [persona_A.id] := by
  have hlen' : ¬ (py_strip content.data).length < 50 := by omega
  have hmem : "alpha" ∈ extract_content_words content := by
    have h5 : 0 < (extract_content_words content).count "alpha" := by
      rw [ha]; norm_num
    exact List.count_pos_iff.mp h5
  have hne : (extract_content_words content).isEmpty = false := by
    rcases hE : extract_content_words content with _ | ⟨w, ws⟩
    · rw [hE] at hmem; simp at hmem
    · rfl
  have hkA : ¬ ((persona_A.keywords == "") = true) := by decide
  have hkB : ¬ ((persona_B.keywords == "") = true) := by decide
  have hkeysA : (get_keywords_list persona_A.keywords).map lower_strip
      = ["alpha", "beta"] := by decide
  have hkeysB : (get_keywords_list persona_B.keywords).map lower_strip
      = ["gamma"] := by decide
  have h1 : keyword_step (extract_content_words content) ([], 0) "alpha"
      = ([exact_label "alpha" 5], (5 : ℚ)) := by
    rw [keyword_step, ha]
    norm_num
  have h2 : keyword_step (extract_content_words content)
      ([exact_label "alpha" 5], (5 : ℚ)) "beta"
      = ([exact_label "alpha" 5, exact_label "beta" 1], (6 : ℚ)) := by
    rw [keyword_step, hb]
    norm_num
  have hgs : ("gamma".data.contains ' ') = false := by decide
  have h3 : keyword_step (extract_content_words content) ([], 0) "gamma"
      = ([], 0) := by
    rw [keyword_step, hg]
    simp [hgs]
  have hfoldA : List.foldl (keyword_step (extract_content_words content))
      ([], 0) ["alpha", "beta"]
      = ([exact_label "alpha" 5, exact_label "beta" 1], (6 : ℚ)) := by
    rw [List.foldl_cons, h1, List.foldl_cons, h2, List.foldl_nil]
  have hfoldB : List.foldl (keyword_step (extract_content_words content))
      ([], 0) ["gamma"] = ([], 0) := by
    rw [List.foldl_cons, h3, List.foldl_nil]
  have hboost : (0 : ℚ) ≤ py_min
      ((6 : ℚ) / ((extract_content_words content).length : ℚ)) (3 / 10) := by
    rw [py_min]
    split
    · positivity
    · norm_num
  have hconf : py_min ((2 : ℚ) / 2
      + py_min ((6 : ℚ) / ((extract_content_words content).length : ℚ)) (3 / 10)) 1
      = 1 := by
    rw [py_min]
    split
    · linarith [hboost]
    · rfl
  have hAeq : analyze_content_for_persona content persona_A =
      { should_map := decide ((1 : ℚ) / 10 < py_min ((2 : ℚ) / 2
          + py_min ((6 : ℚ) / ((extract_content_words content).length : ℚ))
            (3 / 10)) 1)
        confidence := py_min ((2 : ℚ) / 2
          + py_min ((6 : ℚ) / ((extract_content_words content).length : ℚ))
            (3 / 10)) 1
        reason := mk_reason [exact_label "alpha" 5, exact_label "beta" 1] } := by
    rw [analyze_content_for_persona, if_neg hlen', if_neg hkA]
    simp only [hkeysA, hfoldA, hne, Bool.false_eq_true, if_false,
      List.isEmpty_cons, List.length_cons, List.length_nil]
    norm_num
  have hBeq : analyze_content_for_persona content persona_B =
      { should_map := false, confidence := 0,
        reason := "No keyword matches found" } := by
    rw [analyze_content_for_persona, if_neg hlen', if_neg hkB]
    simp only [hkeysB, hfoldB, hne, Bool.false_eq_true, if_false,
      List.isEmpty_nil, if_true]
  have hAmap : (analyze_content_for_persona content persona_A).should_map
      = true := by
    rw [hAeq]
    simp only [decide_eq_true_eq, hconf]
    norm_num
  have hAconf : (analyze_content_for_persona content persona_A).confidence
      = 1 := by
    rw [hAeq]
    exact hconf
  refine ⟨hAmap, hAconf, by rw [hAconf]; norm_num, by rw [hBeq],
    by rw [hBeq], ?_⟩
  intro page_id now
  have hfilter : ([persona_A, persona_B].filter (fun p => p.is_active))
      = [persona_A, persona_B] := by decide
  have hmA : mapping_for page_id content now persona_A
      = some { page_id := page_id
               persona_id := persona_A.id
               confidence_score :=
                 (analyze_content_for_persona content persona_A).confidence
               mapping_reason :=
                 (analyze_content_for_persona content persona_A).reason
               mapping_method := "automated_crawl"
               is_active := true
               crawl_timestamp := some now
               updated_at := now } := by
    rw [mapping_for]
    simp only [hAmap, if_true]
  have hmB : mapping_for page_id content now persona_B = none := by
    rw [mapping_for]
    simp only [hBeq]
    rfl
  rw [new_mappings, hfilter, List.filterMap_cons, hmA, List.filterMap_cons,
    hmB, List.filterMap_nil]
  simp

/-- C9 amended witness: the amended theorem applied to the 69-character
content with `alpha` ×5 and `beta` ×1. -/
theorem c9_keyword_classification_amended_witness :
    (50 ≤ (py_strip c9_long_content.data).length
      ∧ (extract_content_words c9_long_content).count "alpha" = 5
      ∧ (extract_content_words c9_long_content).count "beta" = 1
      ∧ (extract_content_words c9_long_content).count "gamma" = 0)
    ∧ (analyze_content_for_persona c9_long_content persona_A).should_map = true
    ∧ (analyze_content_for_persona c9_long_content persona_B).should_map = false :=
  ⟨⟨by decide, by decide, by decide, by decide⟩,
    (c9_keyword_classification_amended c9_long_content (by decide) (by decide)
      (by decide) (by decide)).1,
    (c9_keyword_classification_amended c9_long_content (by decide) (by decide)
      (by decide) (by decide)).2.2.2.1⟩

/-- C10: content that is empty or shorter than 50 characters after
stripping whitespace is classified `should_map = false` with confidence 0
for every persona, and no mapping row is created for such a page no matter
which personas are active. -/
theorem c10_short_content (content : String) (persona : Persona)
    (h : (py_strip content.data).length < 50) :
    analyze_content_for_persona content persona =
      { should_map := false, confidence := 0,
        reason := "Content too short to analyze" }
    ∧ ∀ (page_id now : Nat) (personas : List Persona),
        new_mappings page_id content personas now = [] := by
  have hall : ∀ q : Persona, analyze_content_for_persona content q =
      { should_map := false, confidence := 0,
        reason := "Content too short to analyze" } := by
    intro q
    rw [analyze_content_for_persona, if_pos h]
  refine ⟨hall persona, ?_⟩
  intro pid now personas
  rw [new_mappings, List.filterMap_eq_nil_iff]
  intro p _
  rw [mapping_for, hall p]
  rfl

/-- C10 witness: a 9-character page body is rejected for persona A and
creates no mapping rows. -/
theorem c10_short_content_witness :
    (py_strip ("tiny page".data)).length < 50
    ∧ analyze_content_for_persona "tiny page" persona_A =
      { should_map := false, confidence := 0,
        reason := "Content too short to analyze" }
    ∧ new_mappings 1 "tiny page" [persona_A, persona_B] 60 = [] :=
  ⟨by decide, (c10_short_content "tiny page" persona_A (by decide)).1,
    (c10_short_content "tiny page" persona_A (by decide)).2 1 60
      [persona_A, persona_B]⟩

/-! ## Per-URL commit structure (`WebCrawler.crawl_page_from_sitemap`)

Processing one URL runs, in order: `save_page` (which ends in
`db.session.commit()`), `analyze_and_map_content` (own commit),
`discover_and_store_new_urls` (own commit), and — back in `start_crawl` —
`crawl_url.mark_as_crawled()` (own commit).  Each of the four is a separate
transaction; a crash between two of them keeps exactly the commits made so
far. -/

/-- One row of the `crawled_pages` table (the columns `save_page`
writes). -/
structure CrawledPage where
  id : Nat
  url : String
  title : String
  content : String
  word_count : Nat
  status_code : Nat
  crawled_at : Nat
  is_processed : Bool
deriving Repr, DecidableEq

/-- `WebCrawler.save_page`: update the existing row for the URL in place
(keeping its primary key), or insert the candidate row. -/
def save_page : List CrawledPage → CrawledPage → List CrawledPage
  | [], candidate => [candidate]
  | p :: rest, candidate =>
      if p.url == candidate.url then { candidate with id := p.id } :: rest
      else p :: save_page rest candidate

/-- The id under which the page is stored after `save_page`: the existing
row's id, or the fresh id of the inserted row. -/
def saved_page_id (pages : List CrawledPage) (candidate : CrawledPage) : Nat :=
  match pages.find? (fun p => p.url == candidate.url) with
  | some p => p.id
  | none => candidate.id

/-- `WebCrawler.discover_and_store_new_urls`: store each extracted link not
already present as a fresh priority-1 frontier entry. -/
def discover_and_store_new_urls (links : List String) (now : Nat)
    (frontier : List CrawlUrl) : List CrawlUrl :=
  links.foldl (fun fr link =>
    if fr.any (fun u => u.url == link) then fr
    else fr ++ [CrawlUrl.fresh link 1 now]) frontier

/-- The database state one URL's processing touches. -/
structure DbState where
  pages : List CrawledPage
  mappings : List ContentMapping
  frontier : List CrawlUrl
deriving Repr, DecidableEq

/-- The four separately committed transactions of one URL's processing, in
program order. -/
def per_url_commits (candidate : CrawledPage) (personas : List Persona)
    (links : List String) (now : Nat) : List (DbState → DbState) :=
  [fun s => { s with pages := save_page s.pages candidate },
   fun s =>
     { s with
       mappings := analyze_and_map_content (saved_page_id s.pages candidate)
         candidate.content personas now s.mappings },
   fun s =>
     { s with
       frontier := discover_and_store_new_urls links now s.frontier },
   fun s =>
     { s with
       frontier := s.frontier.map (fun u =>
         if u.url == candidate.url then u.mark_as_crawled now else u) }]

/-- The state a crash after the first `k` commits leaves behind. -/
def crash_state (commits : List (DbState → DbState)) (k : Nat)
    (s0 : DbState) : DbState :=
  (commits.take k).foldl (fun s t => t s) s0

/-- The page as stored before the re-crawl of the C5 scenario. -/
def c5_old_page : CrawledPage :=
  { id := 1, url := "https://shop.example.com/p", title := "old title",
    content := "old content", word_count := 2, status_code := 200,
    crawled_at := 50, is_processed := true }

/-- The freshly extracted version of the same page. -/
def c5_candidate : CrawledPage :=
  { id := 9, url := "https://shop.example.com/p", title := "new title",
    content := "new content", word_count := 2, status_code := 200,
    crawled_at := 60, is_processed := true }

/-- The frontier entry being re-crawled (reset by overwrite mode). -/
def c5_entry : CrawlUrl := CrawlUrl.fresh "https://shop.example.com/p" 0 10

/-- The database before the URL is processed: the old page row, one active
mapping for it, and its uncrawled frontier entry. -/
def c5_s0 : DbState :=
  { pages := [c5_old_page]
    mappings := [c1_old_mapping]
    frontier := [c5_entry] }

/-- C5 counterexample: with the old page, one active mapping and the
uncrawled frontier entry, a crash after the first commit (the page upsert
of `save_page`) leaves a state that is neither the initial state nor the
state after all four commits: the page row is already updated while the
old mapping is still active and the frontier entry still uncrawled.  The
per-URL work is therefore not a single transactional unit. -/
theorem c5_counterexample :
    ¬ (crash_state (per_url_commits c5_candidate [] [] 60) 1 c5_s0 = c5_s0
      ∨ crash_state (per_url_commits c5_candidate [] [] 60) 1 c5_s0
        = crash_state (per_url_commits c5_candidate [] [] 60) 4 c5_s0) := by
  decide

/-- C5 (amended): one URL's processing is four separately committed
transactions — page upsert, mapping deactivate+insert, link discovery,
frontier success mark, in that order.  After the first commit the page
upsert is durable while the mapping store and the frontier are still
untouched; after the second the frontier is still untouched; only the
fourth commit marks the frontier entries of the URL as crawled.  A crash
between commits therefore keeps exactly the prefix of commits made so
far. -/
theorem c5_per_url_commits_amended (candidate : CrawledPage)
    (personas : List Persona) (links : List String) (now : Nat)
    (s0 : DbState) :
    (per_url_commits candidate personas links now).length = 4
    ∧ (crash_state (per_url_commits candidate personas links now) 1 s0).pages
        = save_page s0.pages candidate
    ∧ (crash_state (per_url_commits candidate personas links now) 1 s0).mappings
        = s0.mappings
    ∧ (crash_state (per_url_commits candidate personas links now) 1 s0).frontier
        = s0.frontier
    ∧ (crash_state (per_url_commits candidate personas links now) 2 s0).frontier
        = s0.frontier
    ∧ (∀ u ∈ (crash_state (per_url_commits candidate personas links now) 4 s0).frontier,
        u.url = candidate.url → u.is_crawled = true ∧ u.crawled_at = some now) := by
  refine ⟨rfl, rfl, rfl, rfl, rfl, ?_⟩
  intro u hu hurl
  have hu' : u ∈ ((crash_state (per_url_commits candidate personas links now) 3 s0).frontier).map
      (fun v => if v.url == candidate.url then v.mark_as_crawled now else v) := hu
  obtain ⟨v, -, rfl⟩ := List.mem_map.mp hu'
  by_cases hv : (v.url == candidate.url) = true
  · simp only [hv, if_true]
    exact ⟨rfl, rfl⟩
  · rw [if_neg hv] at hurl ⊢
    exact absurd (by simp [hurl]) hv

/-- C5 amended witness: in the concrete re-crawl scenario, the frontier
entry of the processed URL is marked crawled after all four commits. -/
theorem c5_per_url_commits_amended_witness :
    (c5_entry.mark_as_crawled 60).is_crawled = true
    ∧ (c5_entry.mark_as_crawled 60).crawled_at = some 60 :=
  (c5_per_url_commits_amended c5_candidate [] [] 60 c5_s0).2.2.2.2.2
    (c5_entry.mark_as_crawled 60) (by decide) (by decide)

end PersonaMapper
